import Mathlib

/-!
Shallow embedding of the fraud-detection scoring engine of the
zaksha-interview-ai repository, together with theorems settling the
frozen claims about its natural-language specification.

Conventions of the embedding:
* JavaScript numbers (timestamps, latencies, scores, confidences) are
  modelled as rationals.
* The per-session maps of each class are modelled as total functions
  from session-id strings, with the same defaults the code uses on a
  missing key (empty list, none).
* JavaScript Array.prototype.sort with a numeric comparator is a stable
  ascending sort; it is modelled by a stable insertion sort.  In-place
  mutation performed by sort is modelled by returning the sorted list
  and storing it back where the code keeps the same array reference.
* The CodeStylometryAnalyzer enters the fusion step only through the
  result of detectCodeAnomalies on the session's code sample, so the
  embedding abstracts it as a verdict-function parameter (a function
  from the submitted code text to an anomaly result); every theorem
  quantifies over that parameter, so each result holds for the real
  analyzer's verdict function in particular.
-/

set_option maxHeartbeats 1000000

namespace Zaksha

/-- Key action of a raw keystroke event: key press (down) or key release (up). -/
inductive KeyAction where
  | down
  | up
deriving DecidableEq

/-- KeystrokeEvent of src/types: sessionId, timestamp t, key identifier, action. -/
structure KeystrokeEvent where
  sessionId : String
  t : ℚ
  key : String
  action : KeyAction
deriving DecidableEq

/-- Derived digraph timing feature (KeystrokeDigraph). -/
structure KeystrokeDigraph where
  sessionId : String
  key1 : String
  key2 : String
  latency : ℚ
  timestamp : ℚ
deriving DecidableEq

/-- Derived trigraph timing feature (KeystrokeTrigraph). -/
structure KeystrokeTrigraph where
  sessionId : String
  key1 : String
  key2 : String
  key3 : String
  latency1 : ℚ
  latency2 : ℚ
  timestamp : ℚ
deriving DecidableEq

/-- TypingProfile of src/types; the string-keyed Maps of latency averages are
modelled as association lists in Map insertion order. -/
structure TypingProfile where
  sessionId : String
  averageSpeed : ℚ
  digraphLatencies : List (String × ℚ)
  trigraphLatencies : List (String × ℚ)
  keyHoldDurations : List (String × ℚ)
  pauseDistribution : List ℚ
  variance : ℚ
deriving DecidableEq

/-- TranscriptChunk of src/types (the random UUID id field attached at
ingestion is not observable by any claim and is not modelled). -/
structure TranscriptChunk where
  sessionId : String
  seq : ℕ
  text : String
  startMs : ℚ
  endMs : ℚ
  speaker : Option String
deriving DecidableEq

/-- ScreenEvent of src/types; the event type is a free string and the
free-form meta mapping is modelled by the two fields the service reads
(meta.count and meta.pattern). -/
structure ScreenEvent where
  sessionId : String
  t : ℚ
  type : String
  metaCount : Option ℚ
  metaPattern : Option String
deriving DecidableEq

/-- CompileRunEvent of src/types. -/
structure CompileRunEvent where
  sessionId : String
  t : ℚ
  action : String
  ok : Option Bool
deriving DecidableEq

/-- FraudRiskLevel of src/types. -/
inductive FraudRiskLevel where
  | low
  | medium
  | high
deriving DecidableEq

/-- FraudReason of src/types (code, message, weight). -/
structure FraudReason where
  code : String
  message : String
  weight : ℚ
deriving DecidableEq

/-- FraudScore snapshot of src/types; atTime models the source's at field
(an ISO timestamp string of the wall-clock time, here a rational). -/
structure FraudScore where
  sessionId : String
  score : ℚ
  level : FraudRiskLevel
  reasons : List FraudReason
  atTime : ℚ
deriving DecidableEq

/-- Consent flags of SessionData. -/
structure Consent where
  audio : Bool
  video : Bool
  screen : Bool
  telemetry : Bool
deriving DecidableEq

/-- Session status of SessionData. -/
inductive SessionStatus where
  | created
  | live
  | ended
  | canceled
deriving DecidableEq

/-- SessionData of src/types. -/
structure SessionData where
  id : String
  candidateId : String
  companyId : String
  role : Option String
  status : SessionStatus
  startedAt : ℚ
  endedAt : Option ℚ
  consent : Consent
deriving DecidableEq

/-- Pointwise update of a string-keyed map, modelling Map.prototype.set. -/
def update {α : Type} (m : String → α) (k : String) (v : α) : String → α :=
  fun k' => if k' = k then v else m k'

/-- Population mean and squared deviations, as the analyzer computes them:
sum divided by length, then mean of squared deviations. -/
def popVariance (xs : List ℚ) : ℚ :=
  let n : ℚ := xs.length
  let mean := xs.sum / n
  (xs.map (fun x => (x - mean) ^ 2)).sum / n

/-- Insert into a sorted list in front of the first element not below the
inserted one; used to model the stable ascending Array.prototype.sort. -/
def insertSorted {α : Type} (le : α → α → Bool) (x : α) : List α → List α
  | [] => [x]
  | y :: ys => if le x y then x :: y :: ys else y :: insertSorted le x ys

/-- Stable ascending sort modelling Array.prototype.sort with a numeric
comparator (stable per the ECMAScript specification). -/
def stableSort {α : Type} (le : α → α → Bool) : List α → List α
  | [] => []
  | x :: xs => insertSorted le x (stableSort le xs)

/-- Latencies of consecutive elements of a time-ordered list. -/
def consecutiveGaps : List ℚ → List ℚ
  | t1 :: t2 :: rest => (t2 - t1) :: consecutiveGaps (t2 :: rest)
  | _ => []

/-- Group values by string key preserving Map insertion order, as the
analyzer builds its groups Map. -/
def groupByKey (pairs : List (String × ℚ)) : List (String × List ℚ) :=
  pairs.foldl
    (fun acc kv =>
      if acc.any (fun g => decide (g.1 = kv.1)) then
        acc.map (fun g => if g.1 = kv.1 then (g.1, g.2 ++ [kv.2]) else g)
      else acc ++ [(kv.1, [kv.2])])
    []

/-- Arithmetic mean of each group. -/
def meansOfGroups (gs : List (String × List ℚ)) : List (String × ℚ) :=
  gs.map (fun g => (g.1, g.2.sum / (g.2.length : ℚ)))

/-- Digraphs found by one scan of a keystroke event list: each adjacent
release-then-press pair with latency in the 10 to 2000 ms band
(analyzeDigraphs of keystrokeAnalyzer). -/
def digraphsOf (sid : String) : List KeystrokeEvent → List KeystrokeDigraph
  | e1 :: e2 :: rest =>
    (if e1.action = KeyAction.up ∧ e2.action = KeyAction.down then
       (if 10 ≤ e2.t - e1.t ∧ e2.t - e1.t ≤ 2000 then
          [{ sessionId := sid, key1 := e1.key, key2 := e2.key,
             latency := e2.t - e1.t, timestamp := e2.t }]
        else [])
     else []) ++ digraphsOf sid (e2 :: rest)
  | _ => []

/-- Trigraphs found by one scan of a keystroke event list, with the literal
condition of analyzeTrigraphs: it tests the middle event for action down
and for action up in the same conjunction. -/
def trigraphsOf (sid : String) : List KeystrokeEvent → List KeystrokeTrigraph
  | e1 :: e2 :: e3 :: rest =>
    (if e1.action = KeyAction.up ∧ e2.action = KeyAction.down ∧
        e2.action = KeyAction.up ∧ e3.action = KeyAction.down then
       (if 10 ≤ e2.t - e1.t ∧ e2.t - e1.t ≤ 2000 ∧
           10 ≤ e3.t - e2.t ∧ e3.t - e2.t ≤ 2000 then
          [{ sessionId := sid, key1 := e1.key, key2 := e2.key, key3 := e3.key,
             latency1 := e2.t - e1.t, latency2 := e3.t - e2.t, timestamp := e3.t }]
        else [])
     else []) ++ trigraphsOf sid (e2 :: e3 :: rest)
  | _ => []

/-- State of the KeystrokeAnalyzer class: its four session-keyed Maps. -/
structure KAState where
  keystrokeEvents : String → List KeystrokeEvent
  digraphs : String → List KeystrokeDigraph
  trigraphs : String → List KeystrokeTrigraph
  typingProfiles : String → Option TypingProfile

/-- Fresh KeystrokeAnalyzer: all Maps empty. -/
def KAState.empty : KAState :=
  { keystrokeEvents := fun _ => []
    digraphs := fun _ => []
    trigraphs := fun _ => []
    typingProfiles := fun _ => none }

/-- recordKeystroke: append the event to the raw log, then run
analyzeDigraphs and analyzeTrigraphs, each of which rescans the whole log
and pushes every match onto the existing derived list (early return when
the log is shorter than 2 resp. 3 events). -/
def recordKeystroke (st : KAState) (sid : String) (e : KeystrokeEvent) : KAState :=
  let events := st.keystrokeEvents sid ++ [e]
  let st1 := { st with keystrokeEvents := update st.keystrokeEvents sid events }
  let newDigraphs :=
    if events.length < 2 then st1.digraphs sid
    else st1.digraphs sid ++ digraphsOf sid events
  let st2 := { st1 with digraphs := update st1.digraphs sid newDigraphs }
  let newTrigraphs :=
    if events.length < 3 then st2.trigraphs sid
    else st2.trigraphs sid ++ trigraphsOf sid events
  { st2 with trigraphs := update st2.trigraphs sid newTrigraphs }

/-- getSessionDuration of keystrokeAnalyzer: 0 when fewer than 2 events,
otherwise last minus first timestamp after an in-place sort by timestamp;
returns the duration together with the (possibly sorted) stored array. -/
def getSessionDuration (events : List KeystrokeEvent) : ℚ × List KeystrokeEvent :=
  if events.length < 2 then (0, events)
  else
    let sorted := stableSort (fun a b => decide (a.t ≤ b.t)) events
    (((sorted.getLast?.map (fun e => e.t)).getD 0) -
       ((sorted.head?.map (fun e => e.t)).getD 0), sorted)

/-- Hold-duration samples of calculateKeyHoldDurations: adjacent
press-then-release pairs of the same key with a duration in (0, 2000) ms. -/
def holdPairs : List KeystrokeEvent → List (String × ℚ)
  | e1 :: e2 :: rest =>
    (if e1.action = KeyAction.down ∧ e2.action = KeyAction.up ∧ e1.key = e2.key then
       (if 0 < e2.t - e1.t ∧ e2.t - e1.t < 2000 then [(e1.key, e2.t - e1.t)] else [])
     else []) ++ holdPairs (e2 :: rest)
  | _ => []

/-- calculateKeyHoldDurations: mean hold duration per key. -/
def calculateKeyHoldDurations (events : List KeystrokeEvent) : List (String × ℚ) :=
  meansOfGroups (groupByKey (holdPairs events))

/-- calculatePauseDistribution: inter-key-press gaps above 100 ms, over the
key-down events sorted by timestamp. -/
def calculatePauseDistribution (events : List KeystrokeEvent) : List ℚ :=
  let keyPresses :=
    stableSort (fun a b => decide (a.t ≤ b.t))
      (events.filter (fun e => decide (e.action = KeyAction.down)))
  (consecutiveGaps (keyPresses.map (fun e => e.t))).filter (fun p => decide (p > 100))

/-- calculateInterKeystrokeVariance: population variance of all
inter-key-press intervals, 0 when fewer than 2 presses. -/
def calculateInterKeystrokeVariance (events : List KeystrokeEvent) : ℚ :=
  let keyPresses :=
    stableSort (fun a b => decide (a.t ≤ b.t))
      (events.filter (fun e => decide (e.action = KeyAction.down)))
  if keyPresses.length < 2 then 0
  else popVariance (consecutiveGaps (keyPresses.map (fun e => e.t)))

/-- calculateDigraphVariance: population variance of the per-key-pair mean
digraph latencies, 0 when fewer than 2 key pairs. -/
def calculateDigraphVariance (digraphLatencies : List (String × ℚ)) : ℚ :=
  let latencies := digraphLatencies.map Prod.snd
  if latencies.length < 2 then 0
  else popVariance latencies

/-- createEmptyProfile: the all-zero, all-empty profile. -/
def createEmptyProfile (sid : String) : TypingProfile :=
  { sessionId := sid, averageSpeed := 0, digraphLatencies := [],
    trigraphLatencies := [], keyHoldDurations := [], pauseDistribution := [],
    variance := 0 }

/-- generateTypingProfile: returns the profile and the analyzer state after
the call (the stored event array is sorted in place by getSessionDuration
and the profile is cached, except on the empty-log early return). -/
def generateTypingProfile (st : KAState) (sid : String) : TypingProfile × KAState :=
  let events := st.keystrokeEvents sid
  let digraphs := st.digraphs sid
  let trigraphs := st.trigraphs sid
  if events.length = 0 then (createEmptyProfile sid, st)
  else
    let dur := getSessionDuration events
    let sessionDuration := dur.1
    let sortedEvents := dur.2
    let characterCount : ℕ :=
      (sortedEvents.filter
        (fun e => decide (e.action = KeyAction.down ∧ e.key.length = 1))).length
    let averageSpeed :=
      if sessionDuration > 0 then ((characterCount : ℚ) / sessionDuration) * 60000 else 0
    let digraphLatencies :=
      meansOfGroups (groupByKey
        (digraphs.map (fun d => (d.key1 ++ "-" ++ d.key2, d.latency))))
    let trigraphLatencies :=
      meansOfGroups (groupByKey
        (trigraphs.map (fun tg =>
          (tg.key1 ++ "-" ++ tg.key2 ++ "-" ++ tg.key3, (tg.latency1 + tg.latency2) / 2))))
    let profile : TypingProfile :=
      { sessionId := sid
        averageSpeed := averageSpeed
        digraphLatencies := digraphLatencies
        trigraphLatencies := trigraphLatencies
        keyHoldDurations := calculateKeyHoldDurations sortedEvents
        pauseDistribution := calculatePauseDistribution sortedEvents
        variance := calculateInterKeystrokeVariance sortedEvents }
    (profile,
     { st with keystrokeEvents := update st.keystrokeEvents sid sortedEvents
               typingProfiles := update st.typingProfiles sid (some profile) })

/-- Result shape shared by detectTypingAnomalies and the stylometry
analyzer's detectCodeAnomalies: isSuspicious, anomalies, confidence. -/
structure AnomalyResult where
  isSuspicious : Bool
  anomalies : List String
  confidence : ℚ
deriving DecidableEq

/-- The pause-pattern condition of detectTypingAnomalies: some pauses
exist and the long-pause fraction exceeds 30 percent. -/
def copyPastePauses (pauseDistribution : List ℚ) : Prop :=
  0 < pauseDistribution.length ∧
    ((pauseDistribution.filter (fun p => decide (p > 5000))).length : ℚ) /
      (pauseDistribution.length : ℚ) > 3 / 10

instance (pauseDistribution : List ℚ) : Decidable (copyPastePauses pauseDistribution) := by
  unfold copyPastePauses
  exact instDecidableAnd

/-- detectTypingAnomalies applied to the looked-up profile: the fixed
additive threshold rule of the analyzer, accumulated in source order in
the two running variables anomalies and confidence. -/
def detectTypingAnomalies (profileOpt : Option TypingProfile) : AnomalyResult :=
  match profileOpt with
  | none => { isSuspicious := false, anomalies := [], confidence := 0 }
  | some profile =>
    let anomalies0 : List String := []
    let confidence0 : ℚ := 0
    let anomalies1 :=
      if profile.variance < 50 then
        anomalies0 ++ ["Unusually uniform keystroke timing detected"]
      else anomalies0
    let confidence1 := if profile.variance < 50 then confidence0 + 3 / 10 else confidence0
    let anomalies2 :=
      if profile.averageSpeed > 200 then
        anomalies1 ++ ["Unusually fast typing speed detected"]
      else if profile.averageSpeed < 20 then
        anomalies1 ++ ["Unusually slow typing speed detected"]
      else anomalies1
    let confidence2 :=
      if profile.averageSpeed > 200 then confidence1 + 2 / 10
      else if profile.averageSpeed < 20 then confidence1 + 1 / 10
      else confidence1
    let anomalies3 :=
      if copyPastePauses profile.pauseDistribution then
        anomalies2 ++ ["Frequent long pauses detected (possible copy-paste)"]
      else anomalies2
    let confidence3 :=
      if copyPastePauses profile.pauseDistribution then confidence2 + 2 / 10 else confidence2
    let anomalies4 :=
      if calculateDigraphVariance profile.digraphLatencies < 100 then
        anomalies3 ++ ["Unusually consistent digraph timing detected"]
      else anomalies3
    let confidence4 :=
      if calculateDigraphVariance profile.digraphLatencies < 100 then confidence3 + 2 / 10
      else confidence3
    { isSuspicious := decide (confidence4 > 3 / 10)
      anomalies := anomalies4
      confidence := min confidence4 1 }

/-- Result record of analyzeBehavioralPatterns.  sessionDuration is none
when every log is empty (the source's spread of empty arrays into
Math.min and Math.max yields an infinite, never-above-threshold value). -/
structure BehavioralAnalysis where
  pasteBursts : ℕ
  tabSwitches : ℕ
  compileCount : ℕ
  avgChunkLen : ℚ
  sessionDuration : Option ℚ
  suspiciousTiming : Bool
  keystrokeAnomalies : Bool
  mouseAnomalies : Bool
  applicationSwitching : Bool
deriving DecidableEq

/-- Gaps between consecutive sorted transcript chunks:
next start minus previous end. -/
def chunkGaps : List TranscriptChunk → List ℚ
  | c1 :: c2 :: rest => (c2.startMs - c1.endMs) :: chunkGaps (c2 :: rest)
  | _ => []

/-- detectSuspiciousTiming: false for fewer than 2 chunks; otherwise sorts
the stored chunk array in place by startMs and reports whether more than
30 percent of consecutive gaps exceed 3 times the mean gap.  Returns the
verdict together with the (possibly sorted) stored array. -/
def detectSuspiciousTiming (chunks : List TranscriptChunk)
    (_screenEvents : List ScreenEvent) : Bool × List TranscriptChunk :=
  if chunks.length < 2 then (false, chunks)
  else
    let sortedChunks := stableSort (fun a b => decide (a.startMs ≤ b.startMs)) chunks
    let gaps := chunkGaps sortedChunks
    let avgGap := gaps.sum / (gaps.length : ℚ)
    let longGaps := (gaps.filter (fun gap => decide (gap > avgGap * 3))).length
    (decide ((longGaps : ℚ) / (gaps.length : ℚ) > 3 / 10), sortedChunks)

/-- detectKeystrokeAnomalies: a KEYSTROKE_BATCH screen event with a truthy
meta.count above 50. -/
def detectKeystrokeAnomalies (screenEvents : List ScreenEvent) : Bool :=
  let keystrokeBatches := screenEvents.filter (fun e => decide (e.type = "KEYSTROKE_BATCH"))
  if keystrokeBatches.length = 0 then false
  else
    let largeBatches := keystrokeBatches.filter (fun e =>
      match e.metaCount with
      | some c => decide (¬c = 0 ∧ c > 50)
      | none => false)
    decide (largeBatches.length > 0)

/-- detectMouseAnomalies: a MOUSE_ANOMALY screen event tagged with one of
the three named suspicious patterns. -/
def detectMouseAnomalies (screenEvents : List ScreenEvent) : Bool :=
  let mouseEvents := screenEvents.filter (fun e => decide (e.type = "MOUSE_ANOMALY"))
  if mouseEvents.length = 0 then false
  else
    let suspiciousPatterns := mouseEvents.filter (fun e =>
      match e.metaPattern with
      | some p => decide (p = "linear_movement" ∨ p = "perfect_clicking" ∨ p = "no_human_delay")
      | none => false)
    decide (suspiciousPatterns.length > 0)

/-- detectApplicationSwitching: 5 or more APPLICATION_SWITCH events, of
which 5 or more fall in the 30 second window before scoring time now. -/
def detectApplicationSwitching (screenEvents : List ScreenEvent) (now : ℚ) : Bool :=
  let appSwitches := screenEvents.filter (fun e => decide (e.type = "APPLICATION_SWITCH"))
  if appSwitches.length < 5 then false
  else
    let recentSwitches := appSwitches.filter (fun e => decide (now - e.t < 30000))
    decide (recentSwitches.length ≥ 5)

/-- analyzeBehavioralPatterns: coarse per-session signals, plus the chunk
array as stored after the in-place sort of detectSuspiciousTiming. -/
def analyzeBehavioralPatterns (chunks : List TranscriptChunk)
    (screenEvents : List ScreenEvent) (compileEvents : List CompileRunEvent)
    (now : ℚ) : BehavioralAnalysis × List TranscriptChunk :=
  let pasteBursts := (screenEvents.filter (fun e => decide (e.type = "PASTE"))).length
  let tabSwitches := (screenEvents.filter (fun e =>
    decide (e.type = "WINDOW_SWITCH" ∨ e.type = "TAB_BLUR"))).length
  let compileCount := compileEvents.length
  let totalChars := (chunks.map (fun c => (c.text.length : ℚ))).sum
  let avgChunkLen := if chunks.length = 0 then 0 else totalChars / (chunks.length : ℚ)
  let startTimes := chunks.map (fun c => c.startMs) ++ screenEvents.map (fun e => e.t) ++
    compileEvents.map (fun e => e.t)
  let endTimes := chunks.map (fun c => c.endMs) ++ screenEvents.map (fun e => e.t) ++
    compileEvents.map (fun e => e.t)
  let sessionDuration : Option ℚ :=
    match startTimes.min?, endTimes.max? with
    | some a, some b => some (b - a)
    | _, _ => none
  let timing := detectSuspiciousTiming chunks screenEvents
  ({ pasteBursts := pasteBursts
     tabSwitches := tabSwitches
     compileCount := compileCount
     avgChunkLen := avgChunkLen
     sessionDuration := sessionDuration
     suspiciousTiming := timing.1
     keystrokeAnomalies := detectKeystrokeAnomalies screenEvents
     mouseAnomalies := detectMouseAnomalies screenEvents
     applicationSwitching := detectApplicationSwitching screenEvents now },
   timing.2)

/-- The low-compile-for-long-session condition of the fusion step:
compileCount at most 1 and session duration above 300000 ms. -/
def lowCompileLongSession (b : BehavioralAnalysis) : Bool :=
  decide (b.compileCount ≤ 1) &&
    (match b.sessionDuration with
     | some d => decide (d > 300000)
     | none => false)

/-- Cross-modal fusion of calculateEnhancedFraudScore, lines 413 to 497:
the running rawScore variable, accumulated rule by rule in source order. -/
def rawFusionScore (typingAnomalies : AnomalyResult) (codeAnomalies : AnomalyResult)
    (b : BehavioralAnalysis) : ℚ :=
  let r0 : ℚ := 0
  let r1 := if typingAnomalies.isSuspicious then r0 + typingAnomalies.confidence * 30 else r0
  let r2 := if codeAnomalies.isSuspicious then r1 + codeAnomalies.confidence * 25 else r1
  let r3 := if 2 ≤ b.pasteBursts then r2 + min ((b.pasteBursts : ℚ) * 6) 15 else r2
  let r4 := if 3 ≤ b.tabSwitches then r3 + min ((b.tabSwitches : ℚ) * 3) 10 else r3
  let r5 := if lowCompileLongSession b then r4 + 10 else r4
  let r6 := if b.suspiciousTiming then r5 + 5 else r5
  let r7 := if b.mouseAnomalies then r6 + 3 else r6
  if b.applicationSwitching then r7 + 2 else r7

/-- Cross-modal fusion of calculateEnhancedFraudScore, lines 413 to 497:
the reasons array, with one push per rule that fires, in source order. -/
def fusionReasons (typingAnomalies : AnomalyResult) (codeAnomalies : AnomalyResult)
    (b : BehavioralAnalysis) : List FraudReason :=
  let rs0 : List FraudReason := []
  let rs1 :=
    if typingAnomalies.isSuspicious then
      rs0 ++ typingAnomalies.anomalies.map (fun a =>
        { code := "KEYSTROKE_ANOMALY", message := a,
          weight := typingAnomalies.confidence * 10 })
    else rs0
  let rs2 :=
    if codeAnomalies.isSuspicious then
      rs1 ++ codeAnomalies.anomalies.map (fun a =>
        { code := "CODE_STYLOMETRY_ANOMALY", message := a,
          weight := codeAnomalies.confidence * 8 })
    else rs1
  let rs3 :=
    if 2 ≤ b.pasteBursts then
      rs2 ++ [{ code := "PASTE_BURST",
                message := "Multiple large paste actions (" ++
                  toString b.pasteBursts ++ " detected)",
                weight := min ((b.pasteBursts : ℚ) * 6) 15 }]
    else rs2
  let rs4 :=
    if 3 ≤ b.tabSwitches then
      rs3 ++ [{ code := "TAB_SWITCHING",
                message := "Frequent tab/window switching (" ++
                  toString b.tabSwitches ++ " switches)",
                weight := min ((b.tabSwitches : ℚ) * 3) 10 }]
    else rs3
  let rs5 :=
    if lowCompileLongSession b then
      rs4 ++ [{ code := "LOW_COMPILE",
                message := "Low compile/run activity for extended session",
                weight := 10 }]
    else rs4
  let rs6 :=
    if b.suspiciousTiming then
      rs5 ++ [{ code := "SUSPICIOUS_TIMING",
                message := "Unusual timing patterns detected", weight := 5 }]
    else rs5
  let rs7 :=
    if b.mouseAnomalies then
      rs6 ++ [{ code := "MOUSE_ANOMALIES",
                message := "Unusual mouse activity patterns detected", weight := 3 }]
    else rs6
  if b.applicationSwitching then
    rs7 ++ [{ code := "APPLICATION_SWITCHING",
              message := "Frequent application switching detected", weight := 2 }]
  else rs7

/-- Final clamp of the raw fusion sum to the 0 to 100 band. -/
def scoreClamp (raw : ℚ) : ℚ := max 0 (min 100 raw)

/-- Risk level thresholds applied to the clamped score. -/
def levelOf (clamped : ℚ) : FraudRiskLevel :=
  if clamped ≥ 70 then FraudRiskLevel.high
  else if clamped ≥ 40 then FraudRiskLevel.medium
  else FraudRiskLevel.low

/-- The session key used throughout calculateEnhancedFraudScore:
the first transcript chunk's sessionId, or the literal string unknown
when there is no chunk (chunks[0]?.sessionId || 'unknown'). -/
def fusionKey (chunks : List TranscriptChunk) : String :=
  match chunks with
  | [] => "unknown"
  | c :: _ => c.sessionId

/-- calculateEnhancedFraudScore: generates the typing profile and anomaly
verdict for the fusionKey session, obtains the stylometry verdict for the
code sample from the stylometry verdict parameter, runs the
behavioral analysis, accumulates the fusion sum and reasons, clamps, and
assigns the level.  Returns the snapshot together with the analyzer state
and the chunk array as mutated by the call.  The keystroke event list
parameter is accepted and ignored exactly as in the source. -/
def calculateEnhancedFraudScore (ka : KAState) (codeAnal : String → AnomalyResult)
    (chunks : List TranscriptChunk) (screenEvents : List ScreenEvent)
    (compileEvents : List CompileRunEvent) (_keystrokeEvents : List KeystrokeEvent)
    (codeSample : String) (now : ℚ) : FraudScore × KAState × List TranscriptChunk :=
  let key := fusionKey chunks
  let gen := generateTypingProfile ka key
  let ka' := gen.2
  let typingAnomalies := detectTypingAnomalies (ka'.typingProfiles key)
  let codeAnomalies := codeAnal codeSample
  let behavioral := analyzeBehavioralPatterns chunks screenEvents compileEvents now
  let b := behavioral.1
  let sortedChunks := behavioral.2
  let clamped := scoreClamp (rawFusionScore typingAnomalies codeAnomalies b)
  ({ sessionId := fusionKey sortedChunks
     score := clamped
     level := levelOf clamped
     reasons := fusionReasons typingAnomalies codeAnomalies b
     atTime := now },
   ka', sortedChunks)

/-- State of the FraudDetectionService: its session-keyed Maps plus the
embedded KeystrokeAnalyzer. -/
structure ServiceState where
  sessions : String → Option SessionData
  fraudSignals : String → List FraudScore
  transcriptChunks : String → List TranscriptChunk
  screenEvents : String → List ScreenEvent
  compileEvents : String → List CompileRunEvent
  keystrokeEvents : String → List KeystrokeEvent
  codeSamples : String → Option String
  analyzer : KAState

/-- Fresh FraudDetectionService: all Maps empty. -/
def ServiceState.empty : ServiceState :=
  { sessions := fun _ => none
    fraudSignals := fun _ => []
    transcriptChunks := fun _ => []
    screenEvents := fun _ => []
    compileEvents := fun _ => []
    keystrokeEvents := fun _ => []
    codeSamples := fun _ => none
    analyzer := KAState.empty }

/-- The snapshot, analyzer state and mutated chunk array produced by one
analyzeFraud call for a session. -/
def analyzeFraudResult (codeAnal : String → AnomalyResult) (st : ServiceState)
    (sid : String) (now : ℚ) : FraudScore × KAState × List TranscriptChunk :=
  calculateEnhancedFraudScore st.analyzer codeAnal
    (st.transcriptChunks sid) (st.screenEvents sid) (st.compileEvents sid)
    (st.keystrokeEvents sid) ((st.codeSamples sid).getD "") now

/-- analyzeFraud: compute the snapshot from the session's logs and append
it to the session's score history; the analyzer state and the stored chunk
array pick up the in-place mutations of the scoring pass. -/
def analyzeFraud (codeAnal : String → AnomalyResult) (st : ServiceState)
    (sid : String) (now : ℚ) : ServiceState :=
  let r := analyzeFraudResult codeAnal st sid now
  { st with
    analyzer := r.2.1
    transcriptChunks := update st.transcriptChunks sid r.2.2
    fraudSignals := update st.fraudSignals sid (st.fraudSignals sid ++ [r.1]) }

/-- ingestTranscript: append the chunk to its session's log (materializing
an empty log for an unknown session), then rescore; returns success. -/
def ingestTranscript (codeAnal : String → AnomalyResult) (st : ServiceState)
    (c : TranscriptChunk) (now : ℚ) : ServiceState × Bool :=
  let appended := st.transcriptChunks c.sessionId ++ [c]
  let st1 := { st with transcriptChunks := update st.transcriptChunks c.sessionId appended }
  (analyzeFraud codeAnal st1 c.sessionId now, true)

/-- ingestScreenEvent: append, rescore, succeed. -/
def ingestScreenEvent (codeAnal : String → AnomalyResult) (st : ServiceState)
    (e : ScreenEvent) (now : ℚ) : ServiceState × Bool :=
  let appended := st.screenEvents e.sessionId ++ [e]
  let st1 := { st with screenEvents := update st.screenEvents e.sessionId appended }
  (analyzeFraud codeAnal st1 e.sessionId now, true)

/-- ingestCompileEvent: append, rescore, succeed. -/
def ingestCompileEvent (codeAnal : String → AnomalyResult) (st : ServiceState)
    (e : CompileRunEvent) (now : ℚ) : ServiceState × Bool :=
  let appended := st.compileEvents e.sessionId ++ [e]
  let st1 := { st with compileEvents := update st.compileEvents e.sessionId appended }
  (analyzeFraud codeAnal st1 e.sessionId now, true)

/-- ingestKeystrokeEvent: append to the service's raw log, record in the
keystroke analyzer, rescore, succeed. -/
def ingestKeystrokeEvent (codeAnal : String → AnomalyResult) (st : ServiceState)
    (e : KeystrokeEvent) (now : ℚ) : ServiceState × Bool :=
  let appended := st.keystrokeEvents e.sessionId ++ [e]
  let st1 := { st with keystrokeEvents := update st.keystrokeEvents e.sessionId appended }
  let st2 := { st1 with analyzer := recordKeystroke st1.analyzer e.sessionId e }
  (analyzeFraud codeAnal st2 e.sessionId now, true)

/-- getLatestScore: the most recently appended snapshot, or the
zero-score low-risk default stamped with the current time. -/
def getLatestScore (st : ServiceState) (sid : String) (now : ℚ) : FraudScore :=
  match (st.fraudSignals sid).getLast? with
  | some latest => latest
  | none =>
    { sessionId := sid, score := 0, level := FraudRiskLevel.low,
      reasons := [], atTime := now }

/-- endInterview: NotFound on an unknown session; otherwise set status to
ended and stamp endedAt with the current time. -/
def endInterview (st : ServiceState) (sid : String) (now : ℚ) :
    Except String (ServiceState × Bool) :=
  match st.sessions sid with
  | none => Except.error "Session not found"
  | some session =>
    let session' := { session with status := SessionStatus.ended, endedAt := some now }
    Except.ok ({ st with sessions := update st.sessions sid (some session') }, true)

/-! Theorems settling the claims. -/

/-- The clamped score satisfies the documented bounds. -/
lemma scoreClamp_bounds (raw : ℚ) : 0 ≤ scoreClamp raw ∧ scoreClamp raw ≤ 100 := by
  constructor
  · exact le_max_left 0 (min 100 raw)
  · exact max_le (by norm_num) (min_le_left 100 raw)

/-- The level thresholds, as three iff characterizations. -/
lemma levelOf_spec (c : ℚ) :
    (levelOf c = FraudRiskLevel.high ↔ 70 ≤ c) ∧
    (levelOf c = FraudRiskLevel.medium ↔ 40 ≤ c ∧ c < 70) ∧
    (levelOf c = FraudRiskLevel.low ↔ c < 40) := by
  unfold levelOf
  split_ifs with h1 h2
  · refine ⟨⟨(fun _ => h1), (fun _ => rfl)⟩,
      ⟨(fun h => nomatch h), (fun h => absurd h1 (not_le.mpr h.2))⟩,
      ⟨(fun h => nomatch h), (fun h => absurd h1 (not_le.mpr (by linarith)))⟩⟩
  · refine ⟨⟨(fun h => nomatch h), (fun h => absurd h h1)⟩,
      ⟨(fun _ => ⟨h2, lt_of_not_le h1⟩), (fun _ => rfl)⟩,
      ⟨(fun h => nomatch h), (fun h => absurd h2 (not_le.mpr h))⟩⟩
  · refine ⟨⟨(fun h => nomatch h), (fun h => absurd h h1)⟩,
      ⟨(fun h => nomatch h), (fun h => absurd h.1 h2)⟩,
      ⟨(fun _ => lt_of_not_le h2), (fun _ => rfl)⟩⟩

/-- C3: for every session state, the computed FraudScore's score lies in
the 0 to 100 band, and its level is high iff score at least 70, medium iff
score in the 40 to 70 band, and low iff score below 40. -/
theorem C3_score_bounds_and_level (ka : KAState) (codeAnal : String → AnomalyResult)
    (chunks : List TranscriptChunk) (screenEvents : List ScreenEvent)
    (compileEvents : List CompileRunEvent) (kEvents : List KeystrokeEvent)
    (codeSample : String) (now : ℚ) :
    let fs := (calculateEnhancedFraudScore ka codeAnal chunks screenEvents compileEvents
      kEvents codeSample now).1
    (0 ≤ fs.score ∧ fs.score ≤ 100) ∧
    (fs.level = FraudRiskLevel.high ↔ 70 ≤ fs.score) ∧
    (fs.level = FraudRiskLevel.medium ↔ 40 ≤ fs.score ∧ fs.score < 70) ∧
    (fs.level = FraudRiskLevel.low ↔ fs.score < 40) := by
  intro fs
  exact ⟨scoreClamp_bounds _, (levelOf_spec _).1, (levelOf_spec _).2.1, (levelOf_spec _).2.2⟩

/-- Key fact behind C4: the literal trigraph condition of analyzeTrigraphs
requires the middle event to be both a press and a release, so one scan of
any event list yields no trigraph. -/
lemma trigraphsOf_eq_nil (sid : String) (events : List KeystrokeEvent) :
    trigraphsOf sid events = [] := by
  induction events with
  | nil => rfl
  | cons e1 rest ih =>
    cases rest with
    | nil => rfl
    | cons e2 rest2 =>
      cases rest2 with
      | nil => rfl
      | cons e3 rest3 =>
        show (if e1.action = KeyAction.up ∧ e2.action = KeyAction.down ∧
                 e2.action = KeyAction.up ∧ e3.action = KeyAction.down then
                (if 10 ≤ e2.t - e1.t ∧ e2.t - e1.t ≤ 2000 ∧
                    10 ≤ e3.t - e2.t ∧ e3.t - e2.t ≤ 2000 then
                   [{ sessionId := sid, key1 := e1.key, key2 := e2.key, key3 := e3.key,
                      latency1 := e2.t - e1.t, latency2 := e3.t - e2.t, timestamp := e3.t }]
                 else [])
              else []) ++ trigraphsOf sid (e2 :: e3 :: rest3) = []
        rw [if_neg, List.nil_append]
        · exact ih
        · rintro ⟨-, h2, h3, -⟩
          rw [h2] at h3
          exact KeyAction.noConfusion h3

/-- C4: the code never records any trigraph, for any keystroke log — the
literal condition of analyzeTrigraphs tests the middle event for action
down and action up in one conjunction, which no event satisfies; in
particular recordKeystroke leaves every stored trigraph list unchanged. -/
theorem C4_no_trigraph_ever_recorded :
    (∀ (sid : String) (events : List KeystrokeEvent), trigraphsOf sid events = []) ∧
    (∀ (st : KAState) (sid k : String) (e : KeystrokeEvent),
      (recordKeystroke st sid e).trigraphs k = st.trigraphs k) := by
  refine ⟨trigraphsOf_eq_nil, ?_⟩
  intro st sid k e
  show update st.trigraphs sid
      (if (st.keystrokeEvents sid ++ [e]).length < 3 then st.trigraphs sid
       else st.trigraphs sid ++ trigraphsOf sid (st.keystrokeEvents sid ++ [e])) k =
    st.trigraphs k
  rw [trigraphsOf_eq_nil, List.append_nil, ite_self]
  unfold update
  by_cases h : k = sid
  · rw [if_pos h, h]
  · rw [if_neg h]

/-- C7: for every session with a generated typing profile, the anomaly
confidence is the clamped-to-unit sum of the five fixed contributions
(variance below 50, speed above 200, speed below 20, long-pause fraction
above 30 percent, per-key-pair digraph variance below 100) and
isSuspicious holds iff the returned confidence exceeds 0.3. -/
theorem C7_detectTypingAnomalies_formula (st : KAState) (sid : String) (p : TypingProfile)
    (h : st.typingProfiles sid = some p) :
    (detectTypingAnomalies (st.typingProfiles sid)).confidence =
      min ((if p.variance < 50 then (3 : ℚ) / 10 else 0) +
           (if p.averageSpeed > 200 then (2 : ℚ) / 10 else 0) +
           (if p.averageSpeed < 20 then (1 : ℚ) / 10 else 0) +
           (if copyPastePauses p.pauseDistribution then (2 : ℚ) / 10 else 0) +
           (if calculateDigraphVariance p.digraphLatencies < 100 then (2 : ℚ) / 10 else 0)) 1 ∧
    ((detectTypingAnomalies (st.typingProfiles sid)).isSuspicious = true ↔
      (detectTypingAnomalies (st.typingProfiles sid)).confidence > 3 / 10) := by
  rw [h]
  constructor
  · simp only [detectTypingAnomalies]
    split_ifs <;> first | (exfalso; linarith) | norm_num
  · simp only [detectTypingAnomalies, decide_eq_true_eq]
    constructor
    · intro hx
      exact lt_min hx (by norm_num)
    · intro hx
      exact lt_of_lt_of_le hx (min_le_left _ _)

/-- Typing profile used to instantiate C7 at a concrete input. -/
def profileW : TypingProfile :=
  { sessionId := "s", averageSpeed := 100, digraphLatencies := [],
    trigraphLatencies := [], keyHoldDurations := [], pauseDistribution := [],
    variance := 60 }

/-- Analyzer state holding that profile. -/
def kaW : KAState :=
  { KAState.empty with typingProfiles := update KAState.empty.typingProfiles "s" (some profileW) }

/-- Witness for C7 at a concrete analyzer state and profile. -/
theorem C7_detectTypingAnomalies_formula_witness :
    kaW.typingProfiles "s" = some profileW ∧
    ((detectTypingAnomalies (kaW.typingProfiles "s")).confidence =
      min ((if profileW.variance < 50 then (3 : ℚ) / 10 else 0) +
           (if profileW.averageSpeed > 200 then (2 : ℚ) / 10 else 0) +
           (if profileW.averageSpeed < 20 then (1 : ℚ) / 10 else 0) +
           (if copyPastePauses profileW.pauseDistribution then (2 : ℚ) / 10 else 0) +
           (if calculateDigraphVariance profileW.digraphLatencies < 100 then (2 : ℚ) / 10 else 0)) 1 ∧
     ((detectTypingAnomalies (kaW.typingProfiles "s")).isSuspicious = true ↔
       (detectTypingAnomalies (kaW.typingProfiles "s")).confidence > 3 / 10)) :=
  ⟨rfl, C7_detectTypingAnomalies_formula kaW "s" profileW rfl⟩

/-- C9 counterexample: on an empty score history the default snapshot is
stamped with the call-time clock, so two calls at different times return
different FraudScore values (their timestamps differ). -/
theorem C9_counterexample_default_timestamp :
    (getLatestScore ServiceState.empty "s1" 1).atTime = 1 ∧
    (getLatestScore ServiceState.empty "s1" 2).atTime = 2 ∧
    getLatestScore ServiceState.empty "s1" 1 ≠ getLatestScore ServiceState.empty "s1" 2 := by
  refine ⟨rfl, rfl, by decide⟩

/-- C9 (amended): two consecutive getLatestScore calls with no intervening
ingestion agree on sessionId, score, level and reasons; when the score
history is nonempty they are fully identical, timestamp included. -/
theorem C9_getLatestScore_stable (st : ServiceState) (sid : String) (n1 n2 : ℚ) :
    ((getLatestScore st sid n1).sessionId = (getLatestScore st sid n2).sessionId ∧
     (getLatestScore st sid n1).score = (getLatestScore st sid n2).score ∧
     (getLatestScore st sid n1).level = (getLatestScore st sid n2).level ∧
     (getLatestScore st sid n1).reasons = (getLatestScore st sid n2).reasons) ∧
    (st.fraudSignals sid ≠ [] → getLatestScore st sid n1 = getLatestScore st sid n2) := by
  unfold getLatestScore
  cases hl : st.fraudSignals sid with
  | nil => simp
  | cons a l =>
    rw [List.getLast?_eq_getLast (a :: l) (by simp)]
    simp

/-- A concrete snapshot for the C9 witness state. -/
def scW : FraudScore :=
  { sessionId := "s", score := 0, level := FraudRiskLevel.low, reasons := [], atTime := 0 }

/-- Service state whose session s has a nonempty score history, to
instantiate C9. -/
def stC9 : ServiceState :=
  { ServiceState.empty with fraudSignals := update ServiceState.empty.fraudSignals "s" [scW] }

/-- Witness for C9 on a nonempty score history. -/
theorem C9_getLatestScore_stable_witness :
    stC9.fraudSignals "s" ≠ [] ∧
    getLatestScore stC9 "s" 1 = getLatestScore stC9 "s" 2 :=
  ⟨by decide, (C9_getLatestScore_stable stC9 "s" 1 2).2 (by decide)⟩

/-- C10: endInterview on a known session succeeds whatever the current
status, replaces exactly the status and endedAt fields (the record update
keeps id, candidateId, companyId, role, startedAt and consent), leaves all
other sessions and all logs untouched, and fails with the NotFound error
on an unknown session. -/
theorem C10_endInterview_frame (st : ServiceState) (sid : String) (now : ℚ) :
    (∀ s0 : SessionData, st.sessions sid = some s0 →
      ∃ st' : ServiceState,
        endInterview st sid now = Except.ok (st', true) ∧
        st'.sessions sid =
          some { s0 with status := SessionStatus.ended, endedAt := some now } ∧
        (∀ k : String, k ≠ sid → st'.sessions k = st.sessions k) ∧
        st'.fraudSignals = st.fraudSignals ∧
        st'.transcriptChunks = st.transcriptChunks ∧
        st'.screenEvents = st.screenEvents ∧
        st'.compileEvents = st.compileEvents ∧
        st'.keystrokeEvents = st.keystrokeEvents ∧
        st'.codeSamples = st.codeSamples) ∧
    (st.sessions sid = none → endInterview st sid now = Except.error "Session not found") := by
  constructor
  · intro s0 h
    refine ⟨{ st with sessions := update st.sessions sid (some { s0 with status := SessionStatus.ended, endedAt := some now }) }, ?_, ?_, ?_, rfl, rfl, rfl, rfl, rfl, rfl⟩
    · unfold endInterview
      rw [h]
    · show update st.sessions sid (some { s0 with status := SessionStatus.ended, endedAt := some now }) sid = _
      unfold update
      rw [if_pos rfl]
    · intro k hk
      show update st.sessions sid (some { s0 with status := SessionStatus.ended, endedAt := some now }) k = _
      unfold update
      rw [if_neg hk]
  · intro h
    unfold endInterview
    rw [h]

/-- Session used to instantiate C10: already ended, with an earlier
endedAt stamp that the call overwrites. -/
def sessionW : SessionData :=
  { id := "s1", candidateId := "cand", companyId := "co", role := none,
    status := SessionStatus.ended, startedAt := 0, endedAt := some 5,
    consent := { audio := true, video := true, screen := true, telemetry := true } }

/-- Service state holding that one session. -/
def stC10 : ServiceState :=
  { ServiceState.empty with sessions := update ServiceState.empty.sessions "s1" (some sessionW) }

/-- Witness for C10: the known-session branch on an already ended session
and the unknown-session branch on a fresh id. -/
theorem C10_endInterview_frame_witness :
    (∃ st' : ServiceState,
      endInterview stC10 "s1" 7 = Except.ok (st', true) ∧
      st'.sessions "s1" =
        some { sessionW with status := SessionStatus.ended, endedAt := some 7 } ∧
      (∀ k : String, k ≠ "s1" → st'.sessions k = stC10.sessions k) ∧
      st'.fraudSignals = stC10.fraudSignals ∧
      st'.transcriptChunks = stC10.transcriptChunks ∧
      st'.screenEvents = stC10.screenEvents ∧
      st'.compileEvents = stC10.compileEvents ∧
      st'.keystrokeEvents = stC10.keystrokeEvents ∧
      st'.codeSamples = stC10.codeSamples) ∧
    endInterview stC10 "s2" 7 = Except.error "Session not found" :=
  ⟨(C10_endInterview_frame stC10 "s1" 7).1 sessionW (by decide),
   (C10_endInterview_frame stC10 "s2" 7).2 (by decide)⟩

/-- The score appended by one analyzeFraud call lands at the end of the
session's own history. -/
lemma analyzeFraud_fraudSignals_self (codeAnal : String → AnomalyResult)
    (st : ServiceState) (sid : String) (now : ℚ) :
    (analyzeFraud codeAnal st sid now).fraudSignals sid =
      st.fraudSignals sid ++ [(analyzeFraudResult codeAnal st sid now).1] := by
  show update st.fraudSignals sid
    (st.fraudSignals sid ++ [(analyzeFraudResult codeAnal st sid now).1]) sid = _
  unfold update
  rw [if_pos rfl]

/-- getLatestScore returns the snapshot at the end of the history. -/
lemma getLatestScore_append (st : ServiceState) (sid : String) (sc : FraudScore)
    (xs : List FraudScore) (h : st.fraudSignals sid = xs ++ [sc]) (now : ℚ) :
    getLatestScore st sid now = sc := by
  unfold getLatestScore
  rw [h, List.getLast?_concat]

/-- C8: each of the four ingestion operations succeeds on any state — in
particular for a session never started, whose logs materialize on demand —
appends exactly one new snapshot to that session's score history, and a
getLatestScore call right afterwards returns that snapshot. -/
theorem C8_ingestion_appends_one_snapshot (codeAnal : String → AnomalyResult)
    (st : ServiceState) (now n2 : ℚ) :
    (∀ c : TranscriptChunk,
      (ingestTranscript codeAnal st c now).2 = true ∧
      ∃ sc : FraudScore,
        (ingestTranscript codeAnal st c now).1.fraudSignals c.sessionId =
          st.fraudSignals c.sessionId ++ [sc] ∧
        getLatestScore (ingestTranscript codeAnal st c now).1 c.sessionId n2 = sc) ∧
    (∀ e : ScreenEvent,
      (ingestScreenEvent codeAnal st e now).2 = true ∧
      ∃ sc : FraudScore,
        (ingestScreenEvent codeAnal st e now).1.fraudSignals e.sessionId =
          st.fraudSignals e.sessionId ++ [sc] ∧
        getLatestScore (ingestScreenEvent codeAnal st e now).1 e.sessionId n2 = sc) ∧
    (∀ e : CompileRunEvent,
      (ingestCompileEvent codeAnal st e now).2 = true ∧
      ∃ sc : FraudScore,
        (ingestCompileEvent codeAnal st e now).1.fraudSignals e.sessionId =
          st.fraudSignals e.sessionId ++ [sc] ∧
        getLatestScore (ingestCompileEvent codeAnal st e now).1 e.sessionId n2 = sc) ∧
    (∀ e : KeystrokeEvent,
      (ingestKeystrokeEvent codeAnal st e now).2 = true ∧
      ∃ sc : FraudScore,
        (ingestKeystrokeEvent codeAnal st e now).1.fraudSignals e.sessionId =
          st.fraudSignals e.sessionId ++ [sc] ∧
        getLatestScore (ingestKeystrokeEvent codeAnal st e now).1 e.sessionId n2 = sc) := by
  refine ⟨?_, ?_, ?_, ?_⟩
  · intro c
    refine ⟨rfl, ?_⟩
    have h := analyzeFraud_fraudSignals_self codeAnal { st with transcriptChunks := update st.transcriptChunks c.sessionId (st.transcriptChunks c.sessionId ++ [c]) } c.sessionId now
    exact ⟨_, h, getLatestScore_append _ _ _ _ h n2⟩
  · intro e
    refine ⟨rfl, ?_⟩
    have h := analyzeFraud_fraudSignals_self codeAnal { st with screenEvents := update st.screenEvents e.sessionId (st.screenEvents e.sessionId ++ [e]) } e.sessionId now
    exact ⟨_, h, getLatestScore_append _ _ _ _ h n2⟩
  · intro e
    refine ⟨rfl, ?_⟩
    have h := analyzeFraud_fraudSignals_self codeAnal { st with compileEvents := update st.compileEvents e.sessionId (st.compileEvents e.sessionId ++ [e]) } e.sessionId now
    exact ⟨_, h, getLatestScore_append _ _ _ _ h n2⟩
  · intro e
    refine ⟨rfl, ?_⟩
    have h := analyzeFraud_fraudSignals_self codeAnal { { st with keystrokeEvents := update st.keystrokeEvents e.sessionId (st.keystrokeEvents e.sessionId ++ [e]) } with analyzer := recordKeystroke { st with keystrokeEvents := update st.keystrokeEvents e.sessionId (st.keystrokeEvents e.sessionId ++ [e]) }.analyzer e.sessionId e } e.sessionId now
    exact ⟨_, h, getLatestScore_append _ _ _ _ h n2⟩

/-- Zero stylometry and typing verdict, used as a concrete input. -/
def zeroAnomaly : AnomalyResult := { isSuspicious := false, anomalies := [], confidence := 0 }

/-- A single PASTE screen event. -/
def singlePaste : ScreenEvent :=
  { sessionId := "s1", t := 0, type := "PASTE", metaCount := none, metaPattern := none }

/-- Behavioral analysis of a session whose only telemetry is one PASTE
event: pasteBursts is 1, everything else is quiet. -/
def onePasteBehavior : BehavioralAnalysis := (analyzeBehavioralPatterns [] [singlePaste] [] 0).1

/-- C2 counterexample: with one PASTE event and quiet modalities the
claimed unconditional formula gives 6 (the paste term fires for every
count) while the code's raw fusion sum is 0, because the paste term is
gated behind pasteBursts at least 2. -/
theorem C2_counterexample_single_paste :
    onePasteBehavior.pasteBursts = 1 ∧
    rawFusionScore zeroAnomaly zeroAnomaly onePasteBehavior = 0 ∧
    zeroAnomaly.confidence * 30 + zeroAnomaly.confidence * 25 +
        min ((onePasteBehavior.pasteBursts : ℚ) * 6) 15 +
        min ((onePasteBehavior.tabSwitches : ℚ) * 3) 10 +
        (if lowCompileLongSession onePasteBehavior then 10 else 0) +
        (if onePasteBehavior.suspiciousTiming then 5 else 0) +
        (if onePasteBehavior.mouseAnomalies then 3 else 0) +
        (if onePasteBehavior.applicationSwitching then 2 else 0) = 6 ∧
    (0 : ℚ) ≠ 6 := by
  refine ⟨rfl, ?_, ?_, by norm_num⟩
  · norm_num +decide [rawFusionScore, zeroAnomaly, onePasteBehavior, analyzeBehavioralPatterns,
      lowCompileLongSession, detectSuspiciousTiming, detectKeystrokeAnomalies,
      detectMouseAnomalies, detectApplicationSwitching, singlePaste, update, List.filter]
  · norm_num +decide [zeroAnomaly, onePasteBehavior, analyzeBehavioralPatterns,
      lowCompileLongSession, detectSuspiciousTiming, detectKeystrokeAnomalies,
      detectMouseAnomalies, detectApplicationSwitching, singlePaste, update,
      List.filter, min_def]

/-- C2 (amended): the raw fusion sum equals the additive formula with the
gates the code imposes — the keystroke and stylometry terms only when the
respective verdict is suspicious, the paste term only when pasteBursts is
at least 2, the tab term only when tabSwitches is at least 3 — plus the
four conditional riders as stated; and the behavioral counts are the
per-session filters over the logs. -/
theorem C2_gated_fusion_formula (typing code : AnomalyResult) (b : BehavioralAnalysis) :
    (rawFusionScore typing code b =
      (if typing.isSuspicious then typing.confidence * 30 else 0) +
      (if code.isSuspicious then code.confidence * 25 else 0) +
      (if 2 ≤ b.pasteBursts then min ((b.pasteBursts : ℚ) * 6) 15 else 0) +
      (if 3 ≤ b.tabSwitches then min ((b.tabSwitches : ℚ) * 3) 10 else 0) +
      (if lowCompileLongSession b then 10 else 0) +
      (if b.suspiciousTiming then 5 else 0) +
      (if b.mouseAnomalies then 3 else 0) +
      (if b.applicationSwitching then 2 else 0)) ∧
    ∀ (chunks : List TranscriptChunk) (screen : List ScreenEvent)
      (compiles : List CompileRunEvent) (now : ℚ),
      (analyzeBehavioralPatterns chunks screen compiles now).1.pasteBursts =
        (screen.filter (fun e => decide (e.type = "PASTE"))).length ∧
      (analyzeBehavioralPatterns chunks screen compiles now).1.tabSwitches =
        (screen.filter (fun e =>
          decide (e.type = "WINDOW_SWITCH" ∨ e.type = "TAB_BLUR"))).length ∧
      (analyzeBehavioralPatterns chunks screen compiles now).1.compileCount =
        compiles.length := by
  constructor
  · unfold rawFusionScore
    split_ifs <;> ring
  · intro chunks screen compiles now
    exact ⟨rfl, rfl, rfl⟩

/-- The keystroke event ingested for session s1 in the C1 scenario. -/
def keystrokeS1 : KeystrokeEvent :=
  { sessionId := "s1", t := 0, key := "a", action := KeyAction.down }

/-- Service state after ingesting one keystroke for session s1 into a
fresh service, for any stylometry verdict function. -/
def stAfterKeystrokeOnly (codeAnal : String → AnomalyResult) : ServiceState :=
  (ingestKeystrokeEvent codeAnal ServiceState.empty keystrokeS1 0).1

/-- C1 failing input: a keystroke ingestion for session s1 with no
transcript chunks, under any stylometry verdict function (so in
particular under the real CodeStylometryAnalyzer's).  Exactly one
snapshot is appended to s1's history and it carries sessionId unknown
(the fusion key is the first transcript chunk's sessionId, not the
ingesting session), and although s1's keystroke log is nonempty, no
typing profile is generated for s1 — the profile generation ran against
the unknown key. -/
theorem C1_snapshot_carries_wrong_session (codeAnal : String → AnomalyResult) :
    (∃ sc : FraudScore,
      (stAfterKeystrokeOnly codeAnal).fraudSignals "s1" = [sc] ∧
      sc.sessionId = "unknown") ∧
    (stAfterKeystrokeOnly codeAnal).analyzer.keystrokeEvents "s1" = [keystrokeS1] ∧
    (stAfterKeystrokeOnly codeAnal).analyzer.typingProfiles "s1" = none ∧
    fusionKey ((stAfterKeystrokeOnly codeAnal).transcriptChunks "s1") = "unknown" ∧
    "unknown" ≠ "s1" :=
  ⟨⟨_, rfl, rfl⟩, rfl, rfl, rfl, by decide⟩

/-- Release of key a at time 0. -/
def releaseA : KeystrokeEvent :=
  { sessionId := "s", t := 0, key := "a", action := KeyAction.up }

/-- Press of key b at time 100. -/
def pressB : KeystrokeEvent :=
  { sessionId := "s", t := 100, key := "b", action := KeyAction.down }

/-- Release of key b at time 150. -/
def releaseB : KeystrokeEvent :=
  { sessionId := "s", t := 150, key := "b", action := KeyAction.up }

/-- Analyzer state after recording the three events in order. -/
def kaThreeEvents : KAState :=
  recordKeystroke (recordKeystroke (recordKeystroke KAState.empty "s" releaseA) "s" pressB) "s" releaseB

/-- The one digraph the three-event log contains: a released to b pressed,
latency 100 ms. -/
def abDigraph : KeystrokeDigraph :=
  { sessionId := "s", key1 := "a", key2 := "b", latency := 100, timestamp := 100 }

/-- C5 failing input: after three recordKeystroke calls the stored digraph
list holds the a-to-b digraph twice — each append rescans the whole log
and pushes every match onto the existing list — while a single
recomputation from the raw log yields it once. -/
theorem C5_incremental_digraphs_duplicate :
    kaThreeEvents.keystrokeEvents "s" = [releaseA, pressB, releaseB] ∧
    kaThreeEvents.digraphs "s" = [abDigraph, abDigraph] ∧
    digraphsOf "s" (kaThreeEvents.keystrokeEvents "s") = [abDigraph] ∧
    ([abDigraph, abDigraph] : List KeystrokeDigraph) ≠ [abDigraph] := by
  refine ⟨rfl, ?_, ?_, by decide⟩
  · norm_num +decide [kaThreeEvents, recordKeystroke, update, digraphsOf, trigraphsOf,
      KAState.empty, releaseA, pressB, releaseB, abDigraph]
  · norm_num +decide [kaThreeEvents, recordKeystroke, update, digraphsOf, trigraphsOf,
      KAState.empty, releaseA, pressB, releaseB, abDigraph]

/-- First-arriving transcript chunk, covering 200 to 210 ms. -/
def chunkLate : TranscriptChunk :=
  { sessionId := "s", seq := 1, text := "", startMs := 200, endMs := 210, speaker := none }

/-- Second-arriving transcript chunk, covering 100 to 110 ms. -/
def chunkEarly : TranscriptChunk :=
  { sessionId := "s", seq := 2, text := "", startMs := 100, endMs := 110, speaker := none }

/-- Service state after ingesting chunkLate and then chunkEarly, for any
stylometry verdict function. -/
def stTwoChunks (codeAnal : String → AnomalyResult) : ServiceState :=
  (ingestTranscript codeAnal
    ((ingestTranscript codeAnal ServiceState.empty chunkLate 0).1) chunkEarly 0).1

/-- C6 failing input: the chunks arrived in the order chunkLate then
chunkEarly, but after the rescore triggered by the second ingestion —
under any stylometry verdict function, so in particular under the real
CodeStylometryAnalyzer's — the stored transcript log is sorted by
startMs: detectSuspiciousTiming sorts the stored array in place, so
arrival order is not preserved. -/
theorem C6_scoring_reorders_transcript_log (codeAnal : String → AnomalyResult) :
    (stTwoChunks codeAnal).transcriptChunks "s" = [chunkEarly, chunkLate] ∧
    ([chunkEarly, chunkLate] : List TranscriptChunk) ≠ [chunkLate, chunkEarly] :=
  ⟨rfl, by decide⟩

end Zaksha
